import Mathlib

/-!
Shallow embedding of `src/csvplugin.py` (class `CSVPlugin`): a store that
loads a CSV file into an in-memory table (a pandas `DataFrame` in the
source) and answers `get_data` / `query_data` requests.

Modelling choices, all driven by the source:
* Scalar cell values are integers or strings (`Value`), matching the
  pandas type inference relevant to the spec (a column whose cells all
  parse as integers becomes numeric, otherwise it stays textual).
* A `Frame` is the embedding of a pandas `DataFrame`: the ordered column
  names plus the ordered data rows.
* `read_csv` embeds `pd.read_csv` on CSV text: first non-blank line is
  the header, blank lines are skipped, a row with a field count different
  from the header is a parse error, and per-column type inference turns a
  column into integers exactly when every cell parses as an integer.
* The argument of `load_csv` (`LoadArg`) is either a path/stream — which
  at read time either yields CSV text or fails with an I/O error (missing
  file, unreadable stream) — or a value of some other kind, which the
  source rejects with a `ValueError`.
* The condition argument of `query_data` (`Condition`) is either a string
  that parses as a boolean expression over column comparisons (`Cond`) or
  an unparsable string; pandas `DataFrame.query` first resolves the column
  names referenced by the expression (failing on an unknown column even
  for an empty table) and then compares row values, failing on a
  type-mismatched ordering comparison.  Mixed-type equality does not
  fail: pandas evaluates it elementwise (a string never equals an
  integer).  All genuine failures are caught in the source and become
  `None`.
-/

inductive Value where
  | vInt : Int → Value
  | vStr : String → Value
deriving DecidableEq, Repr

/-- Comparison operators available in a `query` condition. -/
inductive Cmp where
  | gt | ge | lt | le | eq | ne
deriving DecidableEq, Repr

/-- Boolean expression over column comparisons, the embedding of a parsed
pandas `query` condition such as `col > 50` or `a > 1 and b == "x"`. -/
inductive Cond where
  | cmp : String → Cmp → Value → Cond
  | and : Cond → Cond → Cond
  | or : Cond → Cond → Cond
deriving DecidableEq, Repr

/-- A condition string handed to `query_data`: it either parses to a
boolean expression or is rejected by the expression parser. -/
inductive Condition where
  | parsed : Cond → Condition
  | unparsable : Condition
deriving DecidableEq, Repr

/-- The embedding of a pandas `DataFrame`: ordered column names and
ordered rows of cell values. -/
structure Frame where
  cols : List String
  rows : List (List Value)
deriving DecidableEq, Repr

/-- The result-row shape of the source (`class CSVRow(TypedDict)`):
a zero-based index plus the row's column-name-to-value mapping. -/
structure CSVRow where
  index : Nat
  data : List (String × Value)
deriving DecidableEq, Repr

/-- The plugin state (`class CSVPlugin`): holds the optional dataframe. -/
structure CSVPlugin where
  dataframe : Option Frame
deriving DecidableEq, Repr

/-- `CSVPlugin.__init__`: the store starts with no dataframe. -/
def CSVPlugin.init : CSVPlugin := ⟨none⟩

/-- Integer comparison, the numeric semantics of each operator. -/
def Cmp.onInt : Cmp → Int → Int → Bool
  | .gt, a, b => decide (a > b)
  | .ge, a, b => decide (a ≥ b)
  | .lt, a, b => decide (a < b)
  | .le, a, b => decide (a ≤ b)
  | .eq, a, b => decide (a = b)
  | .ne, a, b => decide (a ≠ b)

/-- Lexicographic string comparison, the textual semantics of each
operator. -/
def Cmp.onStr : Cmp → String → String → Bool
  | .gt, a, b => decide (b < a)
  | .ge, a, b => decide (b < a) || decide (a = b)
  | .lt, a, b => decide (a < b)
  | .le, a, b => decide (a < b) || decide (a = b)
  | .eq, a, b => decide (a = b)
  | .ne, a, b => decide (a ≠ b)

/-- Comparing two cell values: same-typed values compare by their type's
order.  A mixed-type *ordering* comparison is the type error pandas
raises; mixed-type equality is evaluated elementwise without raising
(a string is never equal to an integer), as pandas does. -/
def evalCmp : Value → Cmp → Value → Option Bool
  | .vInt a, op, .vInt b => some (op.onInt a b)
  | .vStr a, op, .vStr b => some (op.onStr a b)
  | _, .eq, _ => some false
  | _, .ne, _ => some true
  | _, _, _ => none

/-- Look a column up in a row mapping. -/
def lookupCol : List (String × Value) → String → Option Value
  | [], _ => none
  | (k, v) :: rest, c => if k = c then some v else lookupCol rest c

/-- Evaluate a parsed condition on one row mapping; `none` is an
evaluation error (missing column or type mismatch). -/
def evalCond (row : List (String × Value)) : Cond → Option Bool
  | .cmp c op lit =>
    match lookupCol row c with
    | none => none
    | some v => evalCmp v op lit
  | .and a b => do
    let x ← evalCond row a
    let y ← evalCond row b
    pure (x && y)
  | .or a b => do
    let x ← evalCond row a
    let y ← evalCond row b
    pure (x || y)

/-- The column names referenced by a condition. -/
def Cond.colRefs : Cond → List String
  | .cmp c _ _ => [c]
  | .and a b => a.colRefs ++ b.colRefs
  | .or a b => a.colRefs ++ b.colRefs

/-- Pair each row's values with the column names — the embedding of one
entry of `DataFrame.to_dict(orient='records')`. -/
def record (cols : List String) (row : List Value) : List (String × Value) :=
  cols.zip row

/-- `enumerate(data)` over result rows: attach fresh zero-based indices,
the embedding of `[{"index": i, "data": row} for i, row in enumerate(data)]`. -/
def enumerate (rows : List (List (String × Value))) : List CSVRow :=
  rows.enum.map fun p => { index := p.1, data := p.2 }

/-- Row-by-row filtering of `DataFrame.query`: keep the rows on which the
condition evaluates true, preserving order; any evaluation error aborts
the whole query. -/
def filterEval (cols : List String) (c : Cond) : List (List Value) → Option (List (List Value))
  | [] => some []
  | r :: rs => do
    let b ← evalCond (record cols r) c
    let rest ← filterEval cols c rs
    pure (if b then r :: rest else rest)

/-- The embedding of `DataFrame.query(condition)`: resolve the referenced
columns (an unknown column is an error even on an empty table), then
filter row by row. -/
def Frame.query (df : Frame) (c : Cond) : Option (List (List Value)) :=
  if (c.colRefs).all (fun n => df.cols.contains n) then
    filterEval df.cols c df.rows
  else
    none

/-- Split a character list at every occurrence of a separator — the CSV
tokenizer's line and field splitting. -/
def splitOnChar (sep : Char) : List Char → List (List Char)
  | [] => [[]]
  | c :: cs =>
    let rest := splitOnChar sep cs
    if c = sep then
      [] :: rest
    else
      match rest with
      | [] => [[c]]
      | g :: gs => (c :: g) :: gs

/-- Split a string at a separator character. -/
def splitStr (sep : Char) (s : String) : List String :=
  (splitOnChar sep s.data).map String.mk

/-- Non-blank lines of the CSV text (`pd.read_csv` skips blank lines). -/
def csvLines (content : String) : List String :=
  (splitStr (Char.ofNat 10) content).filter (fun l => l ≠ "")

/-- The numeric value of a decimal digit character. -/
def digitVal (c : Char) : Option Nat :=
  if '0' ≤ c ∧ c ≤ '9' then some (c.toNat - '0'.toNat) else none

/-- Accumulate a decimal numeral; fails on any non-digit character. -/
def parseNatAux (acc : Nat) : List Char → Option Nat
  | [] => some acc
  | c :: cs =>
    match digitVal c with
    | none => none
    | some d => parseNatAux (acc * 10 + d) cs

/-- Parse a cell as a (possibly negative) decimal integer — models the
integer recognition pandas applies during dtype inference. -/
def cellInt (s : String) : Option Int :=
  match s.data with
  | [] => none
  | '-' :: rest =>
    match rest with
    | [] => none
    | _ :: _ => (parseNatAux 0 rest).map fun n => -(n : Int)
  | cs => (parseNatAux 0 cs).map fun n => (n : Int)

/-- Does every cell of column `j` parse as an integer?  This is the
pandas dtype inference relevant here: such a column becomes numeric. -/
def colIsInt (cells : List (List String)) (j : Nat) : Bool :=
  cells.all fun r => (cellInt (r.getD j "")).isSome

/-- Convert one raw cell according to its column's inferred type. -/
def typedCell (cells : List (List String)) (j : Nat) (s : String) : Value :=
  if colIsInt cells j then .vInt ((cellInt s).getD 0) else .vStr s

/-- Convert all raw rows using per-column type inference. -/
def typedRows (ncols : Nat) (cells : List (List String)) : List (List Value) :=
  cells.map fun r => (List.range ncols).map fun j => typedCell cells j (r.getD j "")

/-- The embedding of `pd.read_csv` on CSV text: header row then data
rows; a row whose field count differs from the header is a parse error;
an input with no lines at all is an error (pandas `EmptyDataError`). -/
def read_csv (content : String) : Option Frame :=
  match csvLines content with
  | [] => none
  | header :: rest =>
    let cols := splitStr ',' header
    let cells := rest.map fun l => splitStr ',' l
    if cells.all (fun r => r.length = cols.length) then
      some { cols := cols, rows := typedRows cols.length cells }
    else
      none

/-- What reading the `load_csv` argument yields before CSV parsing: a
path or stream either produces CSV text or fails with an I/O error
(missing file, permission error, unreadable stream). -/
inductive ReadResult where
  | content : String → ReadResult
  | ioError : ReadResult
deriving DecidableEq, Repr

/-- The argument handed to `load_csv`: a path/stream, or a value of some
other kind, which the source rejects (`raise ValueError`). -/
inductive LoadArg where
  | pathOrStream : ReadResult → LoadArg
  | otherKind : LoadArg
deriving DecidableEq, Repr

/-- Reading plus parsing a path/stream source. -/
def readSource : ReadResult → Option Frame
  | .ioError => none
  | .content s => read_csv s

/-- Whether the whole source reads and parses successfully as CSV. -/
def sourceFrame : LoadArg → Option Frame
  | .pathOrStream r => readSource r
  | .otherKind => none

/-- The embedding of `CSVPlugin.load_csv`: on a path/stream the source
runs `self.dataframe = pd.read_csv(path)` — the right-hand side is read
and parsed first, so if it raises, the assignment never happens and the
`except` branch returns `False` with the state untouched; a wrong-kind
argument raises `ValueError`, likewise caught.  Returns the boolean
result together with the post-call state. -/
def load_csv (st : CSVPlugin) (arg : LoadArg) : Bool × CSVPlugin :=
  match arg with
  | .otherKind => (false, st)
  | .pathOrStream r =>
    match readSource r with
    | none => (false, st)
    | some f => (true, { st with dataframe := some f })

/-- The embedding of `CSVPlugin.get_data`: `None` when no dataframe is
loaded, otherwise every row as an indexed record. -/
def get_data (st : CSVPlugin) : Option (List CSVRow) :=
  match st.dataframe with
  | none => none
  | some df => some (enumerate (df.rows.map (record df.cols)))

/-- The embedding of `CSVPlugin.query_data`: `None` when no dataframe is
loaded; otherwise run `DataFrame.query` on the condition, turning any
caught failure (unparsable condition, unknown column, type mismatch)
into `None`, and index the surviving rows from zero. -/
def query_data (st : CSVPlugin) (cond : Condition) : Option (List CSVRow) :=
  match st.dataframe with
  | none => none
  | some df =>
    match cond with
    | .unparsable => none
    | .parsed c =>
      match df.query c with
      | none => none
      | some rows => some (enumerate (rows.map (record df.cols)))

/-! ## Basic lemmas about the embedded operations -/

/-- A failed load returns the state unchanged: when the read or parse
raises, the assignment to `self.dataframe` never executes. -/
theorem load_csv_failed_state (st : CSVPlugin) (arg : LoadArg)
    (h : (load_csv st arg).1 = false) : (load_csv st arg).2 = st := by
  cases arg with
  | otherKind => rfl
  | pathOrStream r =>
    cases hr : readSource r with
    | none => simp [load_csv, hr]
    | some f => simp [load_csv, hr] at h

/-- The boolean returned by `load_csv` does not depend on the prior
state, only on whether the source reads and parses. -/
theorem load_csv_fst (st : CSVPlugin) (arg : LoadArg) :
    (load_csv st arg).1 = (sourceFrame arg).isSome := by
  cases arg with
  | otherKind => rfl
  | pathOrStream r =>
    cases hr : readSource r with
    | none => simp [load_csv, sourceFrame, hr]
    | some f => simp [load_csv, sourceFrame, hr]

/-- A successful load stores exactly the parsed frame. -/
theorem load_csv_succeeded_state (st : CSVPlugin) (arg : LoadArg) (f : Frame)
    (h : sourceFrame arg = some f) :
    (load_csv st arg).2 = { st with dataframe := some f } := by
  cases arg with
  | otherKind => simp [sourceFrame] at h
  | pathOrStream r => simp_all [load_csv, sourceFrame]

theorem enumerate_length (rows : List (List (String × Value))) :
    (enumerate rows).length = rows.length := by
  simp [enumerate]

theorem enumerate_get (rows : List (List (String × Value))) (i : Nat)
    (hi : i < (enumerate rows).length) (hr : i < rows.length) :
    (enumerate rows).get ⟨i, hi⟩ = { index := i, data := rows.get ⟨i, hr⟩ } := by
  simp [enumerate]

theorem enumerate_map_data (rows : List (List (String × Value))) :
    (enumerate rows).map CSVRow.data = rows := by
  simp only [enumerate, List.map_map]
  have : (CSVRow.data ∘ fun p : Nat × List (String × Value) =>
      CSVRow.mk p.1 p.2) = Prod.snd := rfl
  rw [this, List.enum_map_snd]

/-- When the condition evaluates on every row, `filterEval` succeeds and
returns exactly the rows on which it evaluates true, in order. -/
theorem filterEval_eq_filter (cols : List String) (c : Cond) (rows : List (List Value))
    (h : ∀ r ∈ rows, (evalCond (record cols r) c).isSome) :
    filterEval cols c rows =
      some (rows.filter fun r => evalCond (record cols r) c == some true) := by
  induction rows with
  | nil => rfl
  | cons r rs ih =>
    have hr : (evalCond (record cols r) c).isSome := h r (List.mem_cons_self r rs)
    obtain ⟨b, hb⟩ := Option.isSome_iff_exists.mp hr
    have hrest := ih fun x hx => h x (List.mem_cons_of_mem r hx)
    cases b with
    | true => simp [filterEval, hb, hrest, List.filter_cons]
    | false => simp [filterEval, hb, hrest, List.filter_cons]

/-- When the condition fails to evaluate on some row, the whole query
evaluation fails. -/
theorem filterEval_none (cols : List String) (c : Cond) (rows : List (List Value))
    (h : ∃ r ∈ rows, evalCond (record cols r) c = none) :
    filterEval cols c rows = none := by
  induction rows with
  | nil => simp at h
  | cons r rs ih =>
    rcases h with ⟨x, hx, hnone⟩
    rcases List.mem_cons.mp hx with rfl | hmem
    · simp [filterEval, hnone]
    · cases hb : evalCond (record cols r) c with
      | none => simp [filterEval, hb]
      | some b => simp [filterEval, hb, ih ⟨x, hmem, hnone⟩]

/-! ## Concrete example data (the spec's worked example) -/

/-- The spec's example CSV text. -/
def exampleCSV : String := "a,b\n1,x\n5,y\n10,z\n"

/-- The frame the example CSV parses to. -/
def exampleFrame : Frame :=
  { cols := ["a", "b"],
    rows := [[.vInt 1, .vStr "x"], [.vInt 5, .vStr "y"], [.vInt 10, .vStr "z"]] }

/-- A plugin state holding the example table. -/
def exampleState : CSVPlugin := { dataframe := some exampleFrame }

/-! ## Claims -/

/-- C1: if a `load_csv` call fails — whatever the cause: wrong argument
kind, I/O error, or malformed CSV — the stored table is left unchanged,
so `get_data` after the failed load returns exactly what it returned
before. -/
theorem C1_failed_load_preserves_data (st : CSVPlugin) (arg : LoadArg)
    (h : (load_csv st arg).1 = false) :
    get_data (load_csv st arg).2 = get_data st := by
  rw [load_csv_failed_state st arg h]

/-- C1 witness: a wrong-kind argument on a state holding the example
table fails and leaves `get_data` unchanged. -/
theorem C1_witness :
    (load_csv exampleState .otherKind).1 = false ∧
    get_data (load_csv exampleState .otherKind).2 = get_data exampleState :=
  ⟨rfl, C1_failed_load_preserves_data exampleState .otherKind rfl⟩

/-- C2: `load_csv` always returns a boolean (the embedding is a total
function into `Bool × CSVPlugin`, reflecting that every exception is
caught), and it returns `true` exactly when the source reads and parses
successfully as CSV — `false` on a missing file, unreadable stream,
malformed CSV, or a wrong-kind argument, whatever the prior state. -/
theorem C2_load_csv_true_iff_parses (st : CSVPlugin) (arg : LoadArg) :
    (load_csv st arg).1 = true ↔ ∃ f, sourceFrame arg = some f := by
  rw [load_csv_fst]
  cases h : sourceFrame arg <;> simp [h]

/-- C3: after a successful load of a valid CSV with N data rows,
`get_data` returns exactly N row views, the i-th carrying index i and
the data mapping of the i-th CSV row converted to the column types. -/
theorem C3_get_data_after_load (st : CSVPlugin) (content : String) (f : Frame)
    (h : read_csv content = some f) :
    ∃ l, get_data (load_csv st (.pathOrStream (.content content))).2 = some l ∧
      l.length = f.rows.length ∧
      ∀ i (hi : i < l.length) (hf : i < f.rows.length),
        l.get ⟨i, hi⟩ = { index := i, data := record f.cols (f.rows.get ⟨i, hf⟩) } := by
  have hs : sourceFrame (.pathOrStream (.content content)) = some f := h
  rw [load_csv_succeeded_state st _ f hs]
  refine ⟨enumerate (f.rows.map (record f.cols)), rfl, ?_, ?_⟩
  · simp [enumerate_length]
  · intro i hi hf
    have hm : i < (f.rows.map (record f.cols)).length := by
      simpa using hf
    rw [enumerate_get _ i hi hm]
    simp

/-- C3 witness: loading the spec's example CSV from the initial state
and checking the returned row views. -/
theorem C3_witness :
    read_csv exampleCSV = some exampleFrame ∧
    ∃ l, get_data (load_csv CSVPlugin.init (.pathOrStream (.content exampleCSV))).2 = some l ∧
      l.length = exampleFrame.rows.length ∧
      ∀ i (hi : i < l.length) (hf : i < exampleFrame.rows.length),
        l.get ⟨i, hi⟩ =
          { index := i, data := record exampleFrame.cols (exampleFrame.rows.get ⟨i, hf⟩) } :=
  ⟨by decide, C3_get_data_after_load CSVPlugin.init exampleCSV exampleFrame (by decide)⟩

/-- Unfold `query_data` on a state holding a table. -/
theorem query_data_parsed (st : CSVPlugin) (df : Frame) (c : Cond)
    (hdf : st.dataframe = some df) :
    query_data st (.parsed c) =
      match df.query c with
      | none => none
      | some rows => some (enumerate (rows.map (record df.cols))) := by
  unfold query_data
  rw [hdf]

/-- A query whose columns all resolve and whose condition evaluates on
every row returns the filtered rows. -/
theorem Frame.query_ok (df : Frame) (c : Cond)
    (hcols : ((c.colRefs).all fun n => df.cols.contains n) = true)
    (hok : ∀ r ∈ df.rows, (evalCond (record df.cols r) c).isSome) :
    df.query c = some (df.rows.filter fun r => evalCond (record df.cols r) c == some true) := by
  unfold Frame.query
  rw [hcols, if_pos rfl]
  exact filterEval_eq_filter df.cols c df.rows hok

/-- A query referencing a column the table lacks fails. -/
theorem Frame.query_badCols (df : Frame) (c : Cond)
    (hcols : ((c.colRefs).all fun n => df.cols.contains n) = false) :
    df.query c = none := by
  unfold Frame.query
  rw [hcols]
  simp

/-- A query whose condition fails to evaluate on some row fails. -/
theorem Frame.query_evalFail (df : Frame) (c : Cond)
    (h : ∃ r ∈ df.rows, evalCond (record df.cols r) c = none) :
    df.query c = none := by
  unfold Frame.query
  cases h2 : (c.colRefs).all fun n => df.cols.contains n with
  | false => simp
  | true => simp [filterEval_none df.cols c df.rows h]

/-- C4: on a loaded table, a well-formed condition (all referenced
columns exist and it evaluates on every row) returns exactly the rows on
which it evaluates true, in original row order (a stable filter), with
result indices reassigned 0-based by position in the filtered result. -/
theorem C4_query_filters_stably (st : CSVPlugin) (df : Frame) (c : Cond)
    (hdf : st.dataframe = some df)
    (hcols : (c.colRefs).all (fun n => df.cols.contains n) = true)
    (hok : ∀ r ∈ df.rows, (evalCond (record df.cols r) c).isSome) :
    ∃ l, query_data st (.parsed c) = some l ∧
      l.map CSVRow.data =
        (df.rows.filter fun r => evalCond (record df.cols r) c == some true).map
          (record df.cols) ∧
      ∀ i (hi : i < l.length), (l.get ⟨i, hi⟩).index = i := by
  refine ⟨enumerate ((df.rows.filter fun r =>
      evalCond (record df.cols r) c == some true).map (record df.cols)), ?_, ?_, ?_⟩
  · rw [query_data_parsed st df c hdf, Frame.query_ok df c hcols hok]
  · exact enumerate_map_data _
  · intro i hi
    have hm : i < ((df.rows.filter fun r =>
        evalCond (record df.cols r) c == some true).map (record df.cols)).length := by
      simpa [enumerate_length] using hi
    rw [enumerate_get _ i hi hm]

/-- C4 witness: the spec's example query `a > 4` on the example table. -/
theorem C4_witness :
    ((Cond.cmp "a" .gt (.vInt 4)).colRefs.all
      (fun n => exampleFrame.cols.contains n) = true) ∧
    (∀ r ∈ exampleFrame.rows,
      (evalCond (record exampleFrame.cols r) (Cond.cmp "a" .gt (.vInt 4))).isSome) ∧
    ∃ l, query_data exampleState (.parsed (.cmp "a" .gt (.vInt 4))) = some l ∧
      l.map CSVRow.data =
        (exampleFrame.rows.filter fun r =>
          evalCond (record exampleFrame.cols r) (Cond.cmp "a" .gt (.vInt 4)) ==
            some true).map (record exampleFrame.cols) ∧
      ∀ i (hi : i < l.length), (l.get ⟨i, hi⟩).index = i :=
  ⟨by decide, by decide,
    C4_query_filters_stably exampleState exampleFrame (Cond.cmp "a" .gt (.vInt 4))
      rfl (by decide) (by decide)⟩

/-- Run a sequence of `load_csv` calls from a starting state, keeping
only the evolving state. -/
def runLoads (st : CSVPlugin) (args : List LoadArg) : CSVPlugin :=
  args.foldl (fun s a => (load_csv s a).2) st

/-- A store that starts with no dataframe and sees only failing loads
still has no dataframe. -/
theorem runLoads_dataframe_none (st : CSVPlugin) (args : List LoadArg)
    (h0 : st.dataframe = none) (h : ∀ a ∈ args, sourceFrame a = none) :
    (runLoads st args).dataframe = none := by
  induction args generalizing st with
  | nil => exact h0
  | cons a as ih =>
    have ha : sourceFrame a = none := h a (List.mem_cons_self a as)
    have hfail : (load_csv st a).2 = st := by
      apply load_csv_failed_state
      rw [load_csv_fst, ha]
      rfl
    show (runLoads ((load_csv st a).2) as).dataframe = none
    rw [hfail]
    exact ih st h0 fun x hx => h x (List.mem_cons_of_mem a hx)

/-- C5: from the initial state, as long as every `load_csv` call has
failed (no source parsed), `get_data` and `query_data` both return
`None`. -/
theorem C5_absent_before_first_load (args : List LoadArg) (c : Condition)
    (h : ∀ a ∈ args, sourceFrame a = none) :
    get_data (runLoads CSVPlugin.init args) = none ∧
    query_data (runLoads CSVPlugin.init args) c = none := by
  have hd : (runLoads CSVPlugin.init args).dataframe = none :=
    runLoads_dataframe_none CSVPlugin.init args rfl h
  constructor
  · unfold get_data
    rw [hd]
  · unfold query_data
    rw [hd]

/-- C5 witness: after a wrong-kind load and a failed-read load, both
accessors return `None`. -/
theorem C5_witness :
    (∀ a ∈ [LoadArg.otherKind, LoadArg.pathOrStream .ioError], sourceFrame a = none) ∧
    get_data (runLoads CSVPlugin.init [LoadArg.otherKind, LoadArg.pathOrStream .ioError]) =
      none ∧
    query_data (runLoads CSVPlugin.init [LoadArg.otherKind, LoadArg.pathOrStream .ioError])
      (.parsed (.cmp "a" .gt (.vInt 4))) = none :=
  ⟨by decide,
    (C5_absent_before_first_load _ (.parsed (.cmp "a" .gt (.vInt 4))) (by decide)).1,
    (C5_absent_before_first_load _ (.parsed (.cmp "a" .gt (.vInt 4))) (by decide)).2⟩

/-- C6 counterexample: the claim says every type-mismatched comparison
returns `None`, but a cross-type equality such as `b == 5` on the
example table (whose `b` column holds strings) evaluates elementwise to
false in the program and returns the empty sequence, not the failure
signal. -/
theorem C6_counterexample :
    query_data exampleState (.parsed (.cmp "b" .eq (.vInt 5))) = some [] ∧
    query_data exampleState (.parsed (.cmp "b" .eq (.vInt 5))) ≠ none := by
  decide

/-- C6 (amended): on a loaded table, a malformed condition — an
unparsable string, a reference to a column the table lacks, or one
whose comparison fails to evaluate on some row (a type-mismatched
ordering comparison) — makes `query_data` return `None` instead of
raising.  Cross-type equality comparisons are not failures: they
evaluate elementwise and return a result. -/
theorem C6_malformed_condition_absent (st : CSVPlugin) (df : Frame) (c : Cond)
    (hdf : st.dataframe = some df)
    (hbad : (¬ (c.colRefs).all (fun n => df.cols.contains n) = true) ∨
      ∃ r ∈ df.rows, evalCond (record df.cols r) c = none) :
    query_data st .unparsable = none ∧ query_data st (.parsed c) = none := by
  refine ⟨by simp [query_data, hdf], ?_⟩
  rw [query_data_parsed st df c hdf]
  rcases hbad with hb | hb
  · have hb2 : ((c.colRefs).all fun n => df.cols.contains n) = false :=
      Bool.eq_false_iff.mpr fun he => hb he
    rw [Frame.query_badCols df c hb2]
  · rw [Frame.query_evalFail df c hb]

/-- C6 witness: querying the example table for `zz > 4` (unknown column)
and with an unparsable condition both return `None`. -/
theorem C6_witness :
    ((¬ ((Cond.cmp "zz" .gt (.vInt 4)).colRefs.all
        fun n => exampleFrame.cols.contains n) = true) ∨
      ∃ r ∈ exampleFrame.rows,
        evalCond (record exampleFrame.cols r) (Cond.cmp "zz" .gt (.vInt 4)) = none) ∧
    query_data exampleState .unparsable = none ∧
    query_data exampleState (.parsed (.cmp "zz" .gt (.vInt 4))) = none :=
  ⟨Or.inl (by decide),
    (C6_malformed_condition_absent exampleState exampleFrame (Cond.cmp "zz" .gt (.vInt 4))
      rfl (Or.inl (by decide))).1,
    (C6_malformed_condition_absent exampleState exampleFrame (Cond.cmp "zz" .gt (.vInt 4))
      rfl (Or.inl (by decide))).2⟩

/-- C7: on a loaded table, a well-formed condition that no row satisfies
returns the empty sequence (`some []`), which is distinct from the
failure signal `none`. -/
theorem C7_no_match_empty_sequence (st : CSVPlugin) (df : Frame) (c : Cond)
    (hdf : st.dataframe = some df)
    (hcols : (c.colRefs).all (fun n => df.cols.contains n) = true)
    (hfalse : ∀ r ∈ df.rows, evalCond (record df.cols r) c = some false) :
    query_data st (.parsed c) = some [] := by
  have hok : ∀ r ∈ df.rows, (evalCond (record df.cols r) c).isSome := by
    intro r hr
    rw [hfalse r hr]
    rfl
  have hfilter : (df.rows.filter fun r => evalCond (record df.cols r) c == some true) = [] := by
    rw [List.filter_eq_nil_iff]
    intro r hr
    simp [hfalse r hr]
  rw [query_data_parsed st df c hdf, Frame.query_ok df c hcols hok, hfilter]
  rfl

/-- C7 witness: `a > 100` matches no row of the example table and
returns the empty sequence. -/
theorem C7_witness :
    ((Cond.cmp "a" .gt (.vInt 100)).colRefs.all
      (fun n => exampleFrame.cols.contains n) = true) ∧
    (∀ r ∈ exampleFrame.rows,
      evalCond (record exampleFrame.cols r) (Cond.cmp "a" .gt (.vInt 100)) = some false) ∧
    query_data exampleState (.parsed (.cmp "a" .gt (.vInt 100))) = some [] :=
  ⟨by decide, by decide,
    C7_no_match_empty_sequence exampleState exampleFrame (Cond.cmp "a" .gt (.vInt 100))
      rfl (by decide) (by decide)⟩

/-- C8: on a loaded table whose column `col` is integer-valued in every
row, the results of `col > x` and `col <= x` partition the original
rows: their concatenation is a permutation of the table's rows (no
overlap, no omission, multiplicities preserved). -/
theorem C8_partition_gt_le (st : CSVPlugin) (df : Frame) (col : String) (x : Int)
    (hdf : st.dataframe = some df)
    (hcol : df.cols.contains col = true)
    (hnum : ∀ r ∈ df.rows, ∃ n : Int,
      lookupCol (record df.cols r) col = some (.vInt n)) :
    ∃ l1 l2,
      query_data st (.parsed (.cmp col .gt (.vInt x))) = some l1 ∧
      query_data st (.parsed (.cmp col .le (.vInt x))) = some l2 ∧
      (l1.map CSVRow.data ++ l2.map CSVRow.data).Perm
        (df.rows.map (record df.cols)) := by
  have hcols1 : ((Cond.cmp col Cmp.gt (Value.vInt x)).colRefs.all
      fun n => df.cols.contains n) = true := by
    simpa [Cond.colRefs] using hcol
  have hcols2 : ((Cond.cmp col Cmp.le (Value.vInt x)).colRefs.all
      fun n => df.cols.contains n) = true := by
    simpa [Cond.colRefs] using hcol
  have hok1 : ∀ r ∈ df.rows,
      (evalCond (record df.cols r) (Cond.cmp col .gt (.vInt x))).isSome := by
    intro r hr
    obtain ⟨n, hn⟩ := hnum r hr
    simp [evalCond, hn, evalCmp]
  have hok2 : ∀ r ∈ df.rows,
      (evalCond (record df.cols r) (Cond.cmp col .le (.vInt x))).isSome := by
    intro r hr
    obtain ⟨n, hn⟩ := hnum r hr
    simp [evalCond, hn, evalCmp]
  have hq1 := Frame.query_ok df (.cmp col .gt (.vInt x)) hcols1 hok1
  have hq2 := Frame.query_ok df (.cmp col .le (.vInt x)) hcols2 hok2
  refine ⟨enumerate ((df.rows.filter fun r =>
      evalCond (record df.cols r) (Cond.cmp col .gt (.vInt x)) == some true).map
        (record df.cols)),
    enumerate ((df.rows.filter fun r =>
      evalCond (record df.cols r) (Cond.cmp col .le (.vInt x)) == some true).map
        (record df.cols)), ?_, ?_, ?_⟩
  · rw [query_data_parsed st df _ hdf, hq1]
  · rw [query_data_parsed st df _ hdf, hq2]
  · rw [enumerate_map_data, enumerate_map_data, ← List.map_append]
    have hcongr : (df.rows.filter fun r =>
        evalCond (record df.cols r) (Cond.cmp col .le (.vInt x)) == some true) =
        df.rows.filter fun r =>
          !(evalCond (record df.cols r) (Cond.cmp col .gt (.vInt x)) == some true) := by
      apply List.filter_congr
      intro r hr
      obtain ⟨n, hn⟩ := hnum r hr
      simp [evalCond, hn, evalCmp, Cmp.onInt]
      rw [← decide_not, decide_eq_decide]
      omega
    rw [hcongr]
    exact (List.filter_append_perm _ df.rows).map _

/-- C8 witness: splitting the example table at `a > 4` / `a <= 4`. -/
theorem C8_witness :
    exampleFrame.cols.contains "a" = true ∧
    (∀ r ∈ exampleFrame.rows, ∃ n : Int,
      lookupCol (record exampleFrame.cols r) "a" = some (.vInt n)) ∧
    ∃ l1 l2,
      query_data exampleState (.parsed (.cmp "a" .gt (.vInt 4))) = some l1 ∧
      query_data exampleState (.parsed (.cmp "a" .le (.vInt 4))) = some l2 ∧
      (l1.map CSVRow.data ++ l2.map CSVRow.data).Perm
        (exampleFrame.rows.map (record exampleFrame.cols)) := by
  have hnum : ∀ r ∈ exampleFrame.rows, ∃ n : Int,
      lookupCol (record exampleFrame.cols r) "a" = some (.vInt n) := by
    intro r hr
    simp only [exampleFrame, List.mem_cons, List.not_mem_nil, or_false] at hr
    rcases hr with rfl | rfl | rfl
    · exact ⟨1, rfl⟩
    · exact ⟨5, rfl⟩
    · exact ⟨10, rfl⟩
  exact ⟨by decide, hnum,
    C8_partition_gt_le exampleState exampleFrame "a" 4 rfl (by decide) hnum⟩

/-- A `get_data` call as result/post-state pair: the method body only
reads `self.dataframe` and performs no assignment, so the post-state is
the pre-state. -/
def get_data_call (st : CSVPlugin) : Option (List CSVRow) × CSVPlugin :=
  (get_data st, st)

/-- A `query_data` call as result/post-state pair: the method computes
`self.dataframe.query(...)` — which builds a new frame — and never
assigns to `self.dataframe`. -/
def query_data_call (st : CSVPlugin) (c : Condition) :
    Option (List CSVRow) × CSVPlugin :=
  (query_data st c, st)

/-- C9: `get_data` and `query_data` never modify the stored table: the
`dataframe` field after either call equals the field before it, and a
later operation (here, each accessor run after the other call) observes
the same table and returns the same result. -/
theorem C9_accessors_preserve_state (st : CSVPlugin) (c : Condition) :
    (get_data_call st).2.dataframe = st.dataframe ∧
    (query_data_call st c).2.dataframe = st.dataframe ∧
    get_data (query_data_call st c).2 = get_data st ∧
    query_data (get_data_call st).2 c = query_data st c :=
  ⟨rfl, rfl, rfl, rfl⟩

/-- C10: `get_data` and `query_data` are deterministic and depend only
on the stored table: two calls on states holding the same dataframe,
with equal condition strings, return equal results. -/
theorem C10_accessors_deterministic (st st' : CSVPlugin) (c c' : Condition)
    (hst : st.dataframe = st'.dataframe) (hc : c = c') :
    get_data st = get_data st' ∧ query_data st c = query_data st' c' := by
  subst hc
  constructor
  · unfold get_data
    rw [hst]
  · unfold query_data
    rw [hst]

/-- C10 witness: two calls on the example state with the example
condition agree. -/
theorem C10_witness :
    exampleState.dataframe = exampleState.dataframe ∧
    get_data exampleState = get_data exampleState ∧
    query_data exampleState (.parsed (.cmp "a" .gt (.vInt 4))) =
      query_data exampleState (.parsed (.cmp "a" .gt (.vInt 4))) :=
  ⟨rfl,
    (C10_accessors_deterministic exampleState exampleState
      (.parsed (.cmp "a" .gt (.vInt 4))) (.parsed (.cmp "a" .gt (.vInt 4))) rfl rfl).1,
    (C10_accessors_deterministic exampleState exampleState
      (.parsed (.cmp "a" .gt (.vInt 4))) (.parsed (.cmp "a" .gt (.vInt 4))) rfl rfl).2⟩
